import Mathlib

/-!
Shallow embedding of the SonarQube deployment topology descriptor
(src/main.py, a single AWS CDK stack). Each CDK construct used by the
stack is modelled as a configuration record; construct calls that mutate
a resource (add_ingress_rule, add_container, configure_health_check) are
modelled as explicit functions from the record to the updated record.
Deferred (token) values, such as the database endpoint address and the
secret value, are modelled by the EnvPart inductive and resolved by an
explicit resolution function.
-/

namespace SonarCdk

/-- Subnet reachability tier (ec2.SubnetType). -/
inductive SubnetType where
  | publicSubnet
  | privateWithEgress
  | privateIsolated
deriving DecidableEq, BEq

/-- One entry of the subnet_configuration list (ec2.SubnetConfiguration). -/
structure SubnetConfiguration where
  name : String
  subnetType : SubnetType
deriving DecidableEq, BEq

/-- An IPv4 CIDR block: a 32-bit base address and the number of fixed
leading bits. -/
structure Cidr where
  base : Nat
  bits : Nat
deriving DecidableEq, BEq

/-- Membership of an address in a CIDR block: the address agrees with the
base on the leading bits. -/
def Cidr.containsIp (c : Cidr) (ip : Nat) : Bool :=
  ip < 2 ^ 32 && ip / 2 ^ (32 - c.bits) == c.base / 2 ^ (32 - c.bits)

/-- The library default address space 10.0.0.0/16, used because the stack
passes no explicit address space to ec2.Vpc. -/
def defaultVpcCidr : Cidr :=
  { base := 10 * 2 ^ 24, bits := 16 }

/-- The declared network (ec2.Vpc). -/
structure Vpc where
  constructId : String
  maxAzs : Nat
  cidr : Cidr
  subnetConfiguration : List SubnetConfiguration
deriving DecidableEq, BEq

/-- Number of isolation zones actually used once the provisioning engine
knows how many are available: the declared maximum, capped by
availability. -/
def resolvedAzCount (v : Vpc) (available : Nat) : Nat :=
  min v.maxAzs available

/-- IP protocol of an access rule. -/
inductive IpProtocol where
  | tcp
  | udp
deriving DecidableEq, BEq

/-- A protocol and contiguous port range (ec2.Port). -/
structure PortRange where
  protocol : IpProtocol
  fromPort : Nat
  toPort : Nat
deriving DecidableEq, BEq

/-- ec2.Port.tcp p: the single TCP port p. -/
def PortRange.tcpPort (p : Nat) : PortRange :=
  { protocol := .tcp, fromPort := p, toPort := p }

/-- Does the range admit the given protocol and port. -/
def PortRange.matchesPort (pr : PortRange) (proto : IpProtocol) (port : Nat) : Bool :=
  decide (pr.protocol = proto) && decide (pr.fromPort ≤ port) && decide (port ≤ pr.toPort)

/-- One inbound rule of a security group (peer CIDR, allowed range,
human-readable description). -/
structure IngressRule where
  peer : Cidr
  range : PortRange
  ruleDescription : String
deriving DecidableEq, BEq

/-- An access-control group (ec2.SecurityGroup). -/
structure SecurityGroup where
  constructId : String
  vpcRef : String
  groupDescription : String
  allowAllOutbound : Bool
  ingressRules : List IngressRule
deriving DecidableEq, BEq

/-- add_ingress_rule: append an inbound rule. -/
def SecurityGroup.addIngressRule (sg : SecurityGroup) (peer : Cidr)
    (range : PortRange) (d : String) : SecurityGroup :=
  { sg with ingressRules := sg.ingressRules ++ [⟨peer, range, d⟩] }

/-- Does the group admit an inbound packet with the given protocol, source
address and destination port. -/
def SecurityGroup.allowsInbound (sg : SecurityGroup) (proto : IpProtocol)
    (ip : Nat) (port : Nat) : Bool :=
  sg.ingressRules.any fun r => r.peer.containsIp ip && r.range.matchesPort proto port

/-- A generated secret (secretsmanager.Secret with a
SecretStringGenerator). -/
structure Secret where
  constructId : String
  secretStringTemplate : String
  generateStringKey : String
deriving DecidableEq, BEq

/-- A database subnet group (rds.SubnetGroup). The stack passes no
vpc_subnets, so the library default applies: the private subnet tier. -/
structure SubnetGroup where
  constructId : String
  vpcRef : String
  subnetGroupName : String
  groupDescription : String
  selectedTier : SubnetType
deriving DecidableEq, BEq

/-- Database engine choice (rds.DatabaseInstanceEngine). -/
inductive DbEngine where
  | postgres (version : String)
deriving DecidableEq, BEq

/-- Instance sizing class (ec2.InstanceType.of). -/
structure InstanceType where
  instanceClass : String
  instanceSize : String
deriving DecidableEq, BEq

/-- Credential binding of the database (rds.Credentials). -/
inductive Credentials where
  | fromSecret (secretRef : String)
deriving DecidableEq, BEq

/-- Storage type of the database volume. -/
inductive StorageType where
  | gp2
  | gp3
deriving DecidableEq, BEq

/-- Deletion policy of a resource (cdk.RemovalPolicy). -/
inductive RemovalPolicy where
  | destroy
  | retain
deriving DecidableEq, BEq

/-- The managed database instance (rds.DatabaseInstance). -/
structure DatabaseInstance where
  constructId : String
  engine : DbEngine
  instanceType : InstanceType
  vpcRef : String
  credentials : Credentials
  subnetGroupRef : String
  securityGroupRefs : List String
  databaseName : String
  allocatedStorage : Nat
  storageType : StorageType
  multiAz : Bool
  removalPolicy : RemovalPolicy
  deletionProtection : Bool
deriving DecidableEq, BEq

/-- The compute cluster (ecs.Cluster). -/
structure Cluster where
  constructId : String
  vpcRef : String
deriving DecidableEq, BEq

/-- A log group (logs.LogGroup). -/
structure LogGroup where
  constructId : String
  logGroupName : String
  removalPolicy : RemovalPolicy
deriving DecidableEq, BEq

/-- Log driver configuration (ecs.LogDriver.aws_logs). -/
structure LogDriver where
  streamPfx : String
  logGroupRef : String
deriving DecidableEq, BEq

/-- One piece of an environment-variable value: either a literal string,
or a deferred token resolved by the provisioning engine only after the
referenced resource exists. -/
inductive EnvPart where
  | lit (s : String)
  | dbEndpointAddress (dbRef : String)
  | dbEndpointPort (dbRef : String)
  | secretValue (secretRef : String)
deriving DecidableEq, BEq

/-- An environment value is a concatenation of parts. -/
abbrev EnvValue := List EnvPart

/-- Is the part a deferred token (not a literal). -/
def EnvPart.isDeferred : EnvPart → Bool
  | .lit _ => false
  | _ => true

/-- Values the provisioning engine supplies once the database and secret
are realized. -/
structure Resolution where
  endpointAddress : String
  endpointPort : String
  secretString : String

/-- Resolve one part against realized values. -/
def EnvPart.resolve (r : Resolution) : EnvPart → String
  | .lit s => s
  | .dbEndpointAddress _ => r.endpointAddress
  | .dbEndpointPort _ => r.endpointPort
  | .secretValue _ => r.secretString

/-- Resolve a whole environment value. -/
def resolveEnvValue (r : Resolution) (v : EnvValue) : String :=
  (v.map (EnvPart.resolve r)).foldl (· ++ ·) ""

/-- A container port mapping. -/
structure PortMapping where
  containerPort : Nat
deriving DecidableEq, BEq

/-- One container of a task definition. -/
structure ContainerDefinition where
  name : String
  image : String
  memoryLimitMiB : Nat
  cpu : Nat
  logging : LogDriver
  environment : List (String × EnvValue)
  portMappings : List PortMapping
deriving DecidableEq, BEq

/-- The task definition (ecs.FargateTaskDefinition); task_role is the
execution identity the library creates for the task. -/
structure FargateTaskDefinition where
  constructId : String
  cpu : Nat
  memoryLimitMiB : Nat
  taskRole : String
  containers : List ContainerDefinition
deriving DecidableEq, BEq

/-- add_container: append a container. -/
def FargateTaskDefinition.addContainer (td : FargateTaskDefinition)
    (c : ContainerDefinition) : FargateTaskDefinition :=
  { td with containers := td.containers ++ [c] }

/-- The load-balancer target group, holding the health-check path. -/
structure TargetGroup where
  healthCheckPath : String
deriving DecidableEq, BEq

/-- The generic default health-check path of the provisioning engine. -/
def defaultHealthCheckPath : String := "/"

/-- The inner ECS service the load-balanced pattern creates; the pattern
forwards desired_count to it as the number of task instances to request. -/
structure FargateService where
  clusterRef : String
  taskDefinitionRef : String
  desiredCount : Nat
  securityGroups : List SecurityGroup
deriving DecidableEq, BEq

/-- The load-balanced service (ecs_patterns.ApplicationLoadBalancedFargateService). -/
structure ALBFargateService where
  constructId : String
  clusterRef : String
  taskDefinitionRef : String
  publicLoadBalancer : Bool
  desiredCount : Nat
  ecsService : FargateService
  targetGroup : TargetGroup
deriving DecidableEq, BEq

/-- Build the pattern: the target group starts at the engine default
health-check path, and desired_count is forwarded to the inner service. -/
def mkALBFargateService (constructId clusterRef taskDefinitionRef : String)
    (publicLoadBalancer : Bool) (desiredCount : Nat)
    (securityGroups : List SecurityGroup) : ALBFargateService :=
  { constructId := constructId
    clusterRef := clusterRef
    taskDefinitionRef := taskDefinitionRef
    publicLoadBalancer := publicLoadBalancer
    desiredCount := desiredCount
    ecsService :=
      { clusterRef := clusterRef
        taskDefinitionRef := taskDefinitionRef
        desiredCount := desiredCount
        securityGroups := securityGroups }
    targetGroup := { healthCheckPath := defaultHealthCheckPath } }

/-- configure_health_check: override the health-check path. -/
def ALBFargateService.configureHealthCheck (s : ALBFargateService)
    (path : String) : ALBFargateService :=
  { s with targetGroup := { s.targetGroup with healthCheckPath := path } }

/-- An action on a secret that a permission grant can authorize. -/
inductive SecretAction where
  | getSecretValue
  | describeSecret
  | putSecretValue
  | deleteSecret
  | updateSecret
  | putResourcePolicy
deriving DecidableEq, BEq

/-- Read actions neither modify the secret nor transfer ownership. -/
def SecretAction.isRead : SecretAction → Bool
  | .getSecretValue => true
  | .describeSecret => true
  | _ => false

/-- A permission grant linking a grantee identity to a secret. -/
structure SecretGrant where
  secretRef : String
  grantee : String
  actions : List SecretAction
deriving DecidableEq, BEq

/-- Secret.grant_read: the library grants exactly the two read actions
(GetSecretValue and DescribeSecret) to the grantee. -/
def Secret.grantRead (s : Secret) (grantee : String) : SecretGrant :=
  { secretRef := s.constructId
    grantee := grantee
    actions := [.getSecretValue, .describeSecret] }

/-- The full deployment topology descriptor. -/
structure SonarQubeStack where
  vpc : Vpc
  dbSecret : Secret
  dbSubnetGroup : SubnetGroup
  dbSecurityGroup : SecurityGroup
  database : DatabaseInstance
  cluster : Cluster
  logGroup : LogGroup
  taskDefinition : FargateTaskDefinition
  service : ALBFargateService
  grants : List SecretGrant
deriving DecidableEq, BEq

/-- The stack constructor of src/main.py, line by line. The
deletion_protection flag of the database (hard-coded False in the source)
is the parameter, so that flipping it can be stated. -/
def mkSonarQubeStack (deletionProtection : Bool) : SonarQubeStack :=
  let vpc : Vpc :=
    { constructId := "SonarQubeVPC"
      maxAzs := 2
      cidr := defaultVpcCidr
      subnetConfiguration :=
        [ { name := "public", subnetType := .publicSubnet }
        , { name := "private", subnetType := .privateWithEgress } ] }
  let db_secret : Secret :=
    { constructId := "SonarQubeDBSecret"
      secretStringTemplate := "\x7b\"username\": \"sonar\"\x7d"
      generateStringKey := "password" }
  let db_subnet_group : SubnetGroup :=
    { constructId := "SonarQubeDBSubnetGroup"
      vpcRef := vpc.constructId
      subnetGroupName := "sonarqube-db-subnet-group"
      groupDescription := "Subnet group for SonarQube database"
      selectedTier := .privateWithEgress }
  let db_security_group : SecurityGroup :=
    { constructId := "SonarQubeDBSecurityGroup"
      vpcRef := vpc.constructId
      groupDescription := "Allow SonarQube ECS to access RDS"
      allowAllOutbound := false
      ingressRules := [] }
  let db_security_group :=
    db_security_group.addIngressRule vpc.cidr (PortRange.tcpPort 5432)
      "Allow SonarQube ECS to access RDS"
  let database : DatabaseInstance :=
    { constructId := "SonarQubeDatabase"
      engine := .postgres "VER_14"
      instanceType := { instanceClass := "BURSTABLE3", instanceSize := "MEDIUM" }
      vpcRef := vpc.constructId
      credentials := .fromSecret db_secret.constructId
      subnetGroupRef := db_subnet_group.constructId
      securityGroupRefs := [db_security_group.constructId]
      databaseName := "sonarqube"
      allocatedStorage := 20
      storageType := .gp2
      multiAz := true
      removalPolicy := .destroy
      deletionProtection := deletionProtection }
  let cluster : Cluster :=
    { constructId := "SonarQubeCluster", vpcRef := vpc.constructId }
  let task_definition : FargateTaskDefinition :=
    { constructId := "SonarQubeTaskDefinition"
      cpu := 2048
      memoryLimitMiB := 4096
      taskRole := "SonarQubeTaskDefinitionTaskRole"
      containers := [] }
  let log_group : LogGroup :=
    { constructId := "SonarQubeLogGroup"
      logGroupName := "/ecs/sonarqube"
      removalPolicy := .destroy }
  let task_definition :=
    task_definition.addContainer
      { name := "SonarQubeContainer"
        image := "sonarqube:enterprise"
        memoryLimitMiB := 4096
        cpu := 2048
        logging := { streamPfx := "sonarqube", logGroupRef := log_group.constructId }
        environment :=
          [ ("SONAR_JDBC_URL",
              [ .lit "jdbc:postgresql://"
              , .dbEndpointAddress database.constructId
              , .lit ":"
              , .dbEndpointPort database.constructId
              , .lit "/sonarqube" ])
          , ("SONAR_JDBC_USERNAME", [.lit "sonar"])
          , ("SONAR_JDBC_PASSWORD", [.secretValue db_secret.constructId])
          , ("SONAR_WEB_JAVAOPTS",
              [.lit "-Xmx2048m -Xms256m -XX:+HeapDumpOnOutOfMemoryError"])
          , ("SONAR_SEARCH_JAVAOPTS",
              [.lit "-Xmx2048m -Xms256m -XX:+HeapDumpOnOutOfMemoryError"]) ]
        portMappings := [{ containerPort := 9000 }] }
  let service :=
    mkALBFargateService "SonarQubeService" cluster.constructId
      task_definition.constructId true 1
      [ { constructId := "SonarQubeServiceSG"
          vpcRef := vpc.constructId
          groupDescription := ""
          allowAllOutbound := true
          ingressRules := [] } ]
  let service := service.configureHealthCheck "/sessions/new"
  let grants := [db_secret.grantRead task_definition.taskRole]
  { vpc := vpc
    dbSecret := db_secret
    dbSubnetGroup := db_subnet_group
    dbSecurityGroup := db_security_group
    database := database
    cluster := cluster
    logGroup := log_group
    taskDefinition := task_definition
    service := service
    grants := grants }

/-- The stack as the source declares it: deletion protection disabled. -/
def theStack : SonarQubeStack := mkSonarQubeStack false

/-- All generated secrets the stack declares. -/
def SonarQubeStack.generatedSecrets (st : SonarQubeStack) : List Secret :=
  [st.dbSecret]

/-- The combined container environment of the stack, in declaration
order. -/
def SonarQubeStack.containerEnv (st : SonarQubeStack) : List (String × EnvValue) :=
  (st.taskDefinition.containers.map ContainerDefinition.environment).flatten

/-- Look an environment key up. -/
def envLookup (env : List (String × EnvValue)) (k : String) : Option EnvValue :=
  (env.find? fun kv => kv.1 == k).map fun kv => kv.2

/-- Does a credential binding reference the given secret. -/
def Credentials.refsSecret : Credentials → String → Bool
  | .fromSecret s, sid => s == sid

/-- Does an environment part reference the value of the given secret. -/
def EnvPart.refsSecret : EnvPart → String → Bool
  | .secretValue s, sid => s == sid
  | _, _ => false

/-- How many times an environment references the value of a secret. -/
def envSecretRefCount (env : List (String × EnvValue)) (sid : String) : Nat :=
  (env.map fun kv => (kv.2.filter fun p => p.refsSecret sid).length).sum

/-- How many places of the stack bind the value of the given secret: the
credential binding of the database plus every container-environment
reference. -/
def SonarQubeStack.secretValueRefCount (st : SonarQubeStack) (sid : String) : Nat :=
  (if st.database.credentials.refsSecret sid then 1 else 0)
    + envSecretRefCount st.containerEnv sid

/-- The remainder of a character list after the first occurrence of a
non-empty pattern, or none when the pattern does not occur. -/
def afterFirst (pat : List Char) : List Char → Option (List Char)
  | [] => none
  | c :: cs =>
    if pat.isPrefixOf (c :: cs) then some ((c :: cs).drop pat.length)
    else afterFirst pat cs

/-- Extract the value of the username field from a secret-string
template: the characters between the key marker and the closing quote. -/
def templateUsername (t : String) : Option String :=
  (afterFirst ("\"username\": \"".data) t.data).map fun rest =>
    String.mk (rest.takeWhile fun c => c ≠ '"')

/-- The deferred tokens of an environment value, in order. -/
def deferredTokens (v : EnvValue) : List EnvPart :=
  v.filter EnvPart.isDeferred

/-- C1: the stack generates exactly one credential secret, whose template
fixes the username to sonar and whose password key is generated; that
secret is bound by identity in exactly two places, the credential binding
of the database and the container environment, and no second generated
secret exists. -/
theorem c1_single_shared_secret :
    theStack.generatedSecrets.length = 1 ∧
    templateUsername theStack.dbSecret.secretStringTemplate = some "sonar" ∧
    theStack.dbSecret.generateStringKey = "password" ∧
    theStack.database.credentials = .fromSecret theStack.dbSecret.constructId ∧
    envLookup theStack.containerEnv "SONAR_JDBC_PASSWORD"
      = some [.secretValue theStack.dbSecret.constructId] ∧
    theStack.secretValueRefCount theStack.dbSecret.constructId = 2 := by
  refine ⟨rfl, by decide, rfl, rfl, by decide, by decide⟩

/-- C2: the connection string injected into the container environment
resolves, for every realization of the deferred values, to the database
endpoint address and port joined with the fixed database name sonarqube;
its deferred tokens are exactly the endpoint address and port of the
database construct, so no literal placeholder stands in for the endpoint,
and the password entry is the deferred value of the shared secret. -/
theorem c2_connection_string_deferred :
    (∀ r : Resolution,
      resolveEnvValue r ((envLookup theStack.containerEnv "SONAR_JDBC_URL").getD [])
        = "jdbc:postgresql://" ++ r.endpointAddress ++ ":" ++ r.endpointPort
            ++ "/sonarqube") ∧
    deferredTokens ((envLookup theStack.containerEnv "SONAR_JDBC_URL").getD [])
      = [.dbEndpointAddress theStack.database.constructId,
         .dbEndpointPort theStack.database.constructId] ∧
    envLookup theStack.containerEnv "SONAR_JDBC_PASSWORD"
      = some [.secretValue theStack.dbSecret.constructId] := by
  refine ⟨fun r => ?_, by decide, by decide⟩
  simp [envLookup, resolveEnvValue, theStack, mkSonarQubeStack,
    SonarQubeStack.containerEnv, EnvPart.resolve, FargateTaskDefinition.addContainer]

/-- C3: the database security group admits an inbound packet exactly when
the source address lies in the VPC CIDR block, the protocol is TCP and
the destination port is 5432; its outbound traffic is disabled, while
every security group of the service allows all outbound traffic. -/
theorem c3_db_ingress_scoped_to_vpc_cidr :
    (∀ (proto : IpProtocol) (ip port : Nat),
      theStack.dbSecurityGroup.allowsInbound proto ip port = true ↔
        (defaultVpcCidr.containsIp ip = true ∧ proto = .tcp ∧ port = 5432)) ∧
    theStack.dbSecurityGroup.allowAllOutbound = false ∧
    (theStack.service.ecsService.securityGroups.all
      fun sg => sg.allowAllOutbound) = true := by
  refine ⟨fun proto ip port => ?_, rfl, rfl⟩
  simp only [theStack, mkSonarQubeStack, SecurityGroup.allowsInbound,
    SecurityGroup.addIngressRule, PortRange.matchesPort, PortRange.tcpPort,
    List.nil_append, List.any_cons, List.any_nil, Bool.or_false,
    Bool.and_eq_true, beq_iff_eq, decide_eq_true_eq]
  constructor
  · rintro ⟨h1, ⟨h2, h3⟩, h4⟩
    exact ⟨h1, h2.symm, Nat.le_antisymm h4 h3⟩
  · rintro ⟨h1, h2, h3⟩
    exact ⟨h1, ⟨h2.symm, by omega⟩, by omega⟩

/-- C4: the declared network consists of exactly two subnet tiers, one
publicly reachable and one privately reachable with outbound-only egress,
and requests two isolation zones, so that whenever the environment offers
at least two zones the network spans exactly two of them. -/
theorem c4_two_tier_network_two_zones :
    theStack.vpc.maxAzs = 2 ∧
    theStack.vpc.subnetConfiguration.map SubnetConfiguration.subnetType
      = [.publicSubnet, .privateWithEgress] ∧
    (∀ available : Nat, 2 ≤ available → resolvedAzCount theStack.vpc available = 2) := by
  refine ⟨rfl, rfl, fun available h => ?_⟩
  simp only [resolvedAzCount, theStack, mkSonarQubeStack]
  omega

/-- C4 witness: with two available zones the network resolves to two
isolation zones. -/
theorem c4_two_tier_network_two_zones_witness :
    2 ≤ 2 ∧ resolvedAzCount theStack.vpc 2 = 2 :=
  ⟨by decide, c4_two_tier_network_two_zones.2.2 2 (by decide)⟩

/-- C5: the database instance binds the subnet group selecting the
private tier, the database security group, and the shared credential
secret, with 20 GB of GP2 storage, multi-zone redundancy enabled, a
destroy-on-removal policy and deletion protection disabled. -/
theorem c5_database_binding :
    theStack.database.subnetGroupRef = theStack.dbSubnetGroup.constructId ∧
    theStack.dbSubnetGroup.selectedTier = .privateWithEgress ∧
    theStack.database.securityGroupRefs = [theStack.dbSecurityGroup.constructId] ∧
    theStack.database.credentials = .fromSecret theStack.dbSecret.constructId ∧
    theStack.database.allocatedStorage = 20 ∧
    theStack.database.storageType = .gp2 ∧
    theStack.database.multiAz = true ∧
    theStack.database.removalPolicy = .destroy ∧
    theStack.database.deletionProtection = false :=
  ⟨rfl, rfl, rfl, rfl, rfl, rfl, rfl, rfl, rfl⟩

/-- C6: the service declares a desired replica count of one, and the
pattern forwards that count unchanged to the inner service, so exactly
one task instance is requested. -/
theorem c6_single_task_instance :
    theStack.service.desiredCount = 1 ∧
    theStack.service.ecsService.desiredCount = 1 :=
  ⟨rfl, rfl⟩

/-- C7: the health-check path of the target group equals the configured
override value /sessions/new and differs from the generic default of the
provisioning engine. -/
theorem c7_health_check_override :
    theStack.service.targetGroup.healthCheckPath = "/sessions/new" ∧
    theStack.service.targetGroup.healthCheckPath ≠ defaultHealthCheckPath := by
  refine ⟨rfl, by decide⟩

/-- C8: flipping only the deletion-protection flag of the database from
disabled to enabled leaves every other resource of the stack identical,
and changes nothing of the database except that one flag. -/
theorem c8_deletion_protection_frame :
    (mkSonarQubeStack true).vpc = theStack.vpc ∧
    (mkSonarQubeStack true).dbSecret = theStack.dbSecret ∧
    (mkSonarQubeStack true).dbSubnetGroup = theStack.dbSubnetGroup ∧
    (mkSonarQubeStack true).dbSecurityGroup = theStack.dbSecurityGroup ∧
    (mkSonarQubeStack true).cluster = theStack.cluster ∧
    (mkSonarQubeStack true).logGroup = theStack.logGroup ∧
    (mkSonarQubeStack true).taskDefinition = theStack.taskDefinition ∧
    (mkSonarQubeStack true).service = theStack.service ∧
    (mkSonarQubeStack true).grants = theStack.grants ∧
    (mkSonarQubeStack true).database
      = { theStack.database with deletionProtection := true } :=
  ⟨rfl, rfl, rfl, rfl, rfl, rfl, rfl, rfl, rfl, rfl⟩

/-- C9: the stack declares exactly one permission grant; it links the
execution identity of the task to the credential secret and authorizes
only read actions, so no write or ownership-transferring action is
granted. -/
theorem c9_read_only_grant :
    theStack.grants.length = 1 ∧
    (theStack.grants.all fun g =>
      g.secretRef == theStack.dbSecret.constructId
        && g.grantee == theStack.taskDefinition.taskRole
        && !g.actions.isEmpty
        && g.actions.all SecretAction.isRead) = true := by
  refine ⟨rfl, by decide⟩

/-- C10: the username injected into the container environment equals the
fixed username field of the credential-secret template, so the database
credentials and the connection credentials of the container agree on the
username sonar. -/
theorem c10_username_agreement :
    envLookup theStack.containerEnv "SONAR_JDBC_USERNAME" = some [.lit "sonar"] ∧
    templateUsername theStack.dbSecret.secretStringTemplate = some "sonar" := by
  refine ⟨by decide, by decide⟩

end SonarCdk
